import Mathlib

/-!
Verification of the nyuki agent framework against its specification.

The development shallowly embeds the Python sources:
  - nyuki/api.py      : the request middleware mw_capability
  - nyuki/nyuki.py    : the agent lifecycle (stop, reload, update_config,
                        the built-in /config capability)
  - examples/sample.py: the sample agent message endpoints
  - tests/bus_test.py : behaviour of Bus.publish and Bus.request

Parts of the repository that are not shipped under src (nyuki/bus.py,
nyuki/capabilities.py, nyuki/config.py) are modelled from the
specification; each such definition carries a doc comment starting with
"Modelled from the spec:".
-/

/-- Shallow embedding of a JSON value, the payload type used throughout
the framework for configuration, bus messages and HTTP bodies. -/
inductive Json where
  | null
  | bool (b : Bool)
  | num (n : Int)
  | str (s : String)
  | arr (xs : List Json)
  | obj (fields : List (String × Json))
deriving Repr

/-- Lookup in a JSON object field list, the embedding of a Python dict
read access. -/
def lookupJ : List (String × Json) → String → Option Json
  | [], _ => Option.none
  | (k, v) :: rest, key => if k = key then some v else lookupJ rest key

/-- Update-or-append on a JSON object field list, the embedding of a
Python dict item assignment. -/
def setJ : List (String × Json) → String → Json → List (String × Json)
  | [], k, v => [(k, v)]
  | (k0, v0) :: rest, k, v =>
      if k0 = k then (k0, v) :: rest else (k0, v0) :: setJ rest k v

mutual

/-- JSON serialization, the embedding of json.dumps as used by the bus
when sending payloads. -/
def jsonSerialize : Json → String
  | Json.null => "null"
  | Json.bool b => if b then "true" else "false"
  | Json.num n => toString n
  | Json.str s => "\"" ++ s ++ "\""
  | Json.arr xs => "[" ++ serializeItems xs ++ "]"
  | Json.obj fs => "\x7b" ++ serializeFields fs ++ "\x7d"

/-- Serialization of the items of a JSON array. -/
def serializeItems : List Json → String
  | [] => ""
  | [x] => jsonSerialize x
  | x :: y :: rest => jsonSerialize x ++ ", " ++ serializeItems (y :: rest)

/-- Serialization of the fields of a JSON object. -/
def serializeFields : List (String × Json) → String
  | [] => ""
  | [(k, v)] => "\"" ++ k ++ "\": " ++ jsonSerialize v
  | (k, v) :: f :: rest =>
      "\"" ++ k ++ "\": " ++ jsonSerialize v ++ ", " ++ serializeFields (f :: rest)

end

/-- Modelled from the spec: the Response object of nyuki/capabilities.py
(not in src) is a pair of a JSON-serializable body and a status code with
default status 200. -/
structure Response where
  body : Json
  status : Nat := 200
deriving Repr

/-- The empty success response synthesized by the middleware, the
embedding of aiohttp web.Response() with its defaults (status 200, no
body). -/
def emptyResponse : Response := { body := Json.null, status := 200 }

/-- A Python value as returned by a capability handler: None, a Response
object, or any other value carrying its truthiness. aiohttp Response
objects define no custom truthiness, hence are always truthy. -/
inductive PyVal where
  | pyNone
  | response (r : Response)
  | other (truthy : Bool)
deriving Repr

/-- Python truthiness of a handler return value. -/
def PyVal.truthy : PyVal → Bool
  | PyVal.pyNone => false
  | PyVal.response _ => true
  | PyVal.other b => b

/-- The isinstance check against web.Response in the middleware. -/
def PyVal.isResponse : PyVal → Bool
  | PyVal.response _ => true
  | _ => false

/-- Extraction of the Response object out of a handler return value;
the default arm is unreachable under the isResponse guard. -/
def PyVal.asResponse : PyVal → Response
  | PyVal.response r => r
  | _ => emptyResponse

/-- Outcome of awaiting the capability handler: a returned value, a
raised web.HTTPNotFound, or any other raised exception carrying its
message. -/
inductive HandlerOutcome where
  | ret (v : PyVal)
  | httpNotFound
  | exc (msg : String)
deriving Repr

/-- An exception escaping the middleware. -/
inductive RaisedExc where
  | httpNotFound
  | exc (msg : String)
deriving Repr, DecidableEq

/-- Result of one middleware invocation: the message forwarded to the
process-wide exception hook, if any, and either a returned Response or a
propagated exception. -/
structure MwResult where
  reported : Option String
  outcome : Except RaisedExc Response

/-- Embedding of mw_capability from nyuki/api.py: awaits the handler;
re-raises web.HTTPNotFound untouched; for any other exception calls the
loop exception handler when one is set and re-raises; for a returned
value, forwards it when it is a truthy Response and synthesizes an empty
web.Response() otherwise. The hookSet flag embeds the check of
app.loop private attribute for an installed exception handler. -/
def mw_capability (hookSet : Bool) (h : HandlerOutcome) : MwResult :=
  match h with
  | HandlerOutcome.httpNotFound =>
      { reported := Option.none, outcome := Except.error RaisedExc.httpNotFound }
  | HandlerOutcome.exc m =>
      { reported := if hookSet then some m else Option.none,
        outcome := Except.error (RaisedExc.exc m) }
  | HandlerOutcome.ret v =>
      { reported := Option.none,
        outcome := Except.ok
          (if v.truthy && v.isResponse then v.asResponse else emptyResponse) }

/-- C2 counterexample: with no exception hook installed, a handler
exception "boom" is not reported to any hook, and the middleware
propagates the exception instead of converting it to a response. -/
theorem mw_capability_unreported_cex :
    (mw_capability false (HandlerOutcome.exc "boom")).reported ≠ some "boom" ∧
    (mw_capability false (HandlerOutcome.exc "boom")).outcome =
      Except.error (RaisedExc.exc "boom") := by
  constructor
  · intro h
    simp [mw_capability] at h
  · rfl

/-- C2 (amended): a handler exception other than not found is reported
to the process-wide exception hook exactly when a hook is installed, and
is then re-raised (propagated) rather than converted to a response;
web.HTTPNotFound passes through without any report. -/
theorem mw_capability_exception_spec (hook : Bool) (m : String) :
    mw_capability hook (HandlerOutcome.exc m) =
      { reported := if hook then some m else Option.none,
        outcome := Except.error (RaisedExc.exc m) } ∧
    mw_capability hook HandlerOutcome.httpNotFound =
      { reported := Option.none, outcome := Except.error RaisedExc.httpNotFound } :=
  ⟨rfl, rfl⟩

/-- C8: a handler returning a Response object has it forwarded verbatim;
a handler returning None (no return value) or any non-Response value
yields the synthesized empty success response, whose status is 200 and
whose body is empty. -/
theorem mw_capability_response_spec (hook : Bool) (r : Response) (b : Bool) :
    mw_capability hook (HandlerOutcome.ret (PyVal.response r)) =
      { reported := Option.none, outcome := Except.ok r } ∧
    mw_capability hook (HandlerOutcome.ret PyVal.pyNone) =
      { reported := Option.none, outcome := Except.ok emptyResponse } ∧
    mw_capability hook (HandlerOutcome.ret (PyVal.other b)) =
      { reported := Option.none, outcome := Except.ok emptyResponse } ∧
    emptyResponse.status = 200 ∧ emptyResponse.body = Json.null := by
  refine ⟨rfl, rfl, ?_, rfl, rfl⟩
  simp [mw_capability, PyVal.truthy, PyVal.isResponse]

/-- An HTTP response as seen by a bus request caller: a status and the
parsed JSON body when the body parses as JSON. -/
structure HttpResp where
  status : Nat
  json : Option Json
deriving Repr

/-- Modelled from the spec: Bus.publish of nyuki/bus.py (not in src)
fails with TypeError when the payload is not a structured mapping and
performs no network transmission; otherwise it serializes the payload to
JSON and sends it to the topic of the agent itself, fire-and-forget.
Result: the list of (topic, serialized body) messages handed to the
transport, and either success or the raised TypeError. -/
def Bus.publish (ownTopic : String) (payload : Json) :
    List (String × String) × Except String Unit :=
  match payload with
  | Json.obj fields =>
      ([(ownTopic, jsonSerialize (Json.obj fields))], Except.ok ())
  | _ => ([], Except.error "TypeError")

/-- The request URL built by the bus for a point-to-point request, as
exercised by tests/bus_test.py test_001c_request_error. -/
def requestUrl (recipient endpoint : String) : String :=
  "http://localhost:8080/" ++ recipient ++ "/api/" ++ endpoint

/-- Modelled from the spec: Bus.request of nyuki/bus.py (not in src)
builds a JSON body from the data and sends it with the given method to
the URL derived from the recipient and endpoint. On a transport-level
error it does not raise synchronously: it publishes one structured error
document with fields endpoint, error and data on the topic of the agent
itself and hands the underlying exception back to the caller. Result:
the list of payloads published on the agent topic, and either the
HTTP response or the transport exception. The transport argument embeds
aiohttp.request. -/
def Bus.request (transport : String → String → String → Except String HttpResp)
    (recipient endpoint httpMethod : String) (data : Json) :
    List Json × Except String HttpResp :=
  let url := requestUrl recipient endpoint
  match transport url httpMethod (jsonSerialize data) with
  | Except.ok resp => ([], Except.ok resp)
  | Except.error e =>
      ([Json.obj [("endpoint", Json.str url), ("error", Json.str e), ("data", data)]],
       Except.error e)

/-- C6: publishing any non-mapping payload (null, a boolean, a number, a
string or an array) raises TypeError and sends nothing to the transport;
publishing a mapping sends exactly its JSON serialization to the agent
own topic and succeeds. -/
theorem bus_publish_spec (topic s : String) (b : Bool) (n : Int)
    (xs : List Json) (fields : List (String × Json)) :
    Bus.publish topic Json.null = ([], Except.error "TypeError") ∧
    Bus.publish topic (Json.bool b) = ([], Except.error "TypeError") ∧
    Bus.publish topic (Json.num n) = ([], Except.error "TypeError") ∧
    Bus.publish topic (Json.str s) = ([], Except.error "TypeError") ∧
    Bus.publish topic (Json.arr xs) = ([], Except.error "TypeError") ∧
    Bus.publish topic (Json.obj fields) =
      ([(topic, jsonSerialize (Json.obj fields))], Except.ok ()) :=
  ⟨rfl, rfl, rfl, rfl, rfl, rfl⟩

/-- C5: when the transport fails with an error on a bus request, the
call publishes exactly one structured error document with fields
endpoint, error and data on the agent topic, and hands the underlying
exception back to the caller instead of a response. -/
theorem bus_request_error_spec
    (transport : String → String → String → Except String HttpResp)
    (recipient endpoint httpMethod : String) (data : Json) (e : String)
    (h : transport (requestUrl recipient endpoint) httpMethod (jsonSerialize data) =
      Except.error e) :
    Bus.request transport recipient endpoint httpMethod data =
      ([Json.obj [("endpoint", Json.str (requestUrl recipient endpoint)),
                  ("error", Json.str e), ("data", data)]],
       Except.error e) := by
  unfold Bus.request
  simp [h]

/-- Witness for C5 at the concrete input of test_001c_request_error: a
transport raising ClientOSError, recipient None, endpoint url, method
get and data containing one message field. -/
theorem bus_request_error_spec_witness :
    Bus.request (fun _ _ _ => Except.error "ClientOSError()") "None" "url" "get"
        (Json.obj [("message", Json.str "text")]) =
      ([Json.obj [("endpoint", Json.str "http://localhost:8080/None/api/url"),
                  ("error", Json.str "ClientOSError()"),
                  ("data", Json.obj [("message", Json.str "text")])]],
       Except.error "ClientOSError()") :=
  bus_request_error_spec (fun _ _ _ => Except.error "ClientOSError()")
    "None" "url" "get" (Json.obj [("message", Json.str "text")]) "ClientOSError()" rfl

/-- The initial message store of the sample agent from examples/sample.py. -/
def sampleMessages : List (String × Json) :=
  [("1", Json.str "message 1"), ("2", Json.str "message 2")]

/-- Embedding of Sample.Message.get from examples/sample.py: an id absent
from the message store yields a 404 response with an error body, a
present id yields its message with the default status 200. -/
def Message.get (messages : List (String × Json)) (mid : String) : Response :=
  match lookupJ messages mid with
  | Option.none =>
      { status := 404, body := Json.obj [("message", Json.str "message does not exists")] }
  | some m => { body := Json.obj [("message", m)] }

/-- Embedding of Sample.Message.patch from examples/sample.py: reading
the message key of the request dict raises KeyError when absent, which
is answered with a 400 response and no store change; otherwise the value
is assigned to the store under the given id (update or insert) and a 200
response carries the stored value back. -/
def Message.patch (messages : List (String × Json)) (mid : String)
    (request : List (String × Json)) : List (String × Json) × Response :=
  match lookupJ request "message" with
  | Option.none =>
      (messages, { status := 400, body := Json.obj [("message", Json.str "missing message")] })
  | some v =>
      let messages1 := setJ messages mid v
      (messages1,
       { status := 200,
         body := Json.obj [("message", (lookupJ messages1 mid).getD Json.null)] })

/-- Route matching for the endpoint template of Sample.Message in
examples/sample.py, whose path parameter is declared as one or more
digits; the path is taken as its list of segments. aiohttp dynamic
routes match such a segment only when it is nonempty and all digits. -/
def matchMessageRoute : List String → Option String
  | ["message", mid] =>
      if !mid.data.isEmpty && mid.data.all Char.isDigit then some mid else Option.none
  | _ => Option.none

/-- The 404 response produced by aiohttp routing itself when no route
matches, before any handler runs. -/
def routing404 : Response := { status := 404, body := Json.str "404: Not Found" }

/-- Dispatch of a GET on the message endpoint: the handler runs only on
a successful route match, otherwise routing answers 404 by itself. -/
def serveMessageGet (messages : List (String × Json)) (path : List String) : Response :=
  match matchMessageRoute path with
  | some mid => Message.get messages mid
  | Option.none => routing404

/-- Stored value after a dict assignment is the assigned value. -/
theorem lookupJ_setJ (messages : List (String × Json)) (mid : String) (v : Json) :
    lookupJ (setJ messages mid v) mid = some v := by
  induction messages with
  | nil => simp [setJ, lookupJ]
  | cons head rest ih =>
      obtain ⟨k0, v0⟩ := head
      by_cases hk : k0 = mid
      · simp [setJ, lookupJ, hk]
      · simp [setJ, lookupJ, hk, ih]

/-- C7: a GET on the message endpoint with an all-digit id absent from
the store matches the route and the handler answers 404 with an error
message body; a non-numeric path segment fails the route match itself,
so the handler never runs and routing produces the 404. -/
theorem message_get_spec (messages : List (String × Json)) (mid seg : String)
    (hne : mid.data.isEmpty = false) (hdigit : mid.data.all Char.isDigit = true)
    (hmiss : lookupJ messages mid = Option.none)
    (hseg : seg.data.all Char.isDigit = false) :
    matchMessageRoute ["message", mid] = some mid ∧
    serveMessageGet messages ["message", mid] =
      { status := 404,
        body := Json.obj [("message", Json.str "message does not exists")] } ∧
    matchMessageRoute ["message", seg] = Option.none ∧
    serveMessageGet messages ["message", seg] = routing404 := by
  have hmatch : matchMessageRoute ["message", mid] = some mid := by
    simp [matchMessageRoute, hne, hdigit]
  have hnomatch : matchMessageRoute ["message", seg] = Option.none := by
    simp [matchMessageRoute, hseg]
  refine ⟨hmatch, ?_, hnomatch, ?_⟩
  · simp [serveMessageGet, hmatch, Message.get, hmiss]
  · simp [serveMessageGet, hnomatch]

/-- Witness for C7 at the concrete inputs of the sample agent: id 3 is
numeric and absent from the initial store, segment abc is non-numeric. -/
theorem message_get_spec_witness :
    matchMessageRoute ["message", "3"] = some "3" ∧
    serveMessageGet sampleMessages ["message", "3"] =
      { status := 404,
        body := Json.obj [("message", Json.str "message does not exists")] } ∧
    matchMessageRoute ["message", "abc"] = Option.none ∧
    serveMessageGet sampleMessages ["message", "abc"] = routing404 :=
  message_get_spec sampleMessages "3" "abc" (by decide) (by decide)
    (by simp [sampleMessages, lookupJ]) (by decide)

/-- C9: a PATCH on the message endpoint whose request dict lacks the
message key answers 400 with a structured error body and leaves the
store untouched; a request dict carrying the message key always answers
200, assigns the value under the given id whether or not the id was
already present (update or insert), and the stored value afterwards is
exactly the request value. -/
theorem message_patch_spec (messages : List (String × Json)) (mid : String)
    (request : List (String × Json)) (v : Json) :
    (lookupJ request "message" = Option.none →
      Message.patch messages mid request =
        (messages,
         { status := 400, body := Json.obj [("message", Json.str "missing message")] })) ∧
    (lookupJ request "message" = some v →
      Message.patch messages mid request =
        (setJ messages mid v,
         { status := 200, body := Json.obj [("message", v)] }) ∧
      lookupJ (setJ messages mid v) mid = some v) := by
  constructor
  · intro hmiss
    simp [Message.patch, hmiss]
  · intro hv
    refine ⟨?_, lookupJ_setJ messages mid v⟩
    simp [Message.patch, hv, lookupJ_setJ]

/-- Witness for C9 at concrete inputs: a request without the message key
answers 400 unchanged, and a request with the message key on the absent
id 5 inserts a new entry and answers 200 with the stored value. -/
theorem message_patch_spec_witness :
    Message.patch sampleMessages "5" [("other", Json.str "x")] =
      (sampleMessages,
       { status := 400, body := Json.obj [("message", Json.str "missing message")] }) ∧
    (Message.patch sampleMessages "5" [("message", Json.str "hi")] =
      (setJ sampleMessages "5" (Json.str "hi"),
       { status := 200, body := Json.obj [("message", Json.str "hi")] }) ∧
     lookupJ (setJ sampleMessages "5" (Json.str "hi")) "5" = some (Json.str "hi")) :=
  ⟨(message_patch_spec sampleMessages "5" [("other", Json.str "x")] Json.null).1
     (by simp [lookupJ]),
   (message_patch_spec sampleMessages "5" [("message", Json.str "hi")]
     (Json.str "hi")).2 (by simp [lookupJ])⟩

/-- A configuration is a nested JSON mapping, given as its field list. -/
abbrev Config := List (String × Json)

/-- Modelled from the spec: the merge performed by merge_configs of
nyuki/config.py (not in src) on nested configuration mappings; each
patch field overrides the base field of the same key, except that two
mappings are merged recursively, and new keys are added. -/
def mergeFields : Config → Config → Config
  | base, [] => base
  | base, (k, Json.obj b) :: rest =>
      mergeFields
        (setJ base k
          (match lookupJ base k with
           | some (Json.obj a) => Json.obj (mergeFields a b)
           | _ => Json.obj b))
        rest
  | base, (k, v) :: rest => mergeFields (setJ base k v) rest
termination_by _ patch => sizeOf patch
decreasing_by all_goals simp_wf <;> omega

/-- Modelled from the spec: merge_configs of nyuki/config.py (not in
src) validates the proposed patch against the registered schema; on
failure it raises a ValidationError carrying a message and applies
nothing; on success it returns the patch merged into the base
configuration. The validate argument embeds the registered jsonschema:
Option.none for a valid patch, some message for a violation. -/
def merge_configs (validate : Config → Option String) (base patch : Config) :
    Except String Config :=
  match validate patch with
  | some msg => Except.error msg
  | Option.none => Except.ok (mergeFields base patch)

/-- State of the bus object: a construction counter distinguishing the
bus instances made over the agent lifetime, the bus section of the
configuration it was built from, and its connection flag. -/
structure BusState where
  gen : Nat
  conf : Option Json
  connected : Bool
deriving Repr

/-- State of the Exposer: the api section of the configuration it
serves with (host and port live there), the registered capabilities and
the running flag. -/
structure ExposerState where
  apiConf : Option Json
  capabilities : List String
  running : Bool
deriving Repr

/-- Modelled from the spec: Bus.disconnect of nyuki/bus.py (not in src)
requests graceful termination of the session. -/
def BusState.disconnect (b : BusState) : BusState := { b with connected := false }

/-- Modelled from the spec: Bus.connect of nyuki/bus.py (not in src)
initiates the session. -/
def BusState.connect (b : BusState) : BusState := { b with connected := true }

/-- Modelled from the spec: Exposer.shutdown of nyuki/capabilities.py
(not in src) closes the listening socket after a bounded wait. -/
def ExposerState.shutdown (e : ExposerState) : ExposerState := { e with running := false }

/-- Modelled from the spec: Exposer.restart of nyuki/capabilities.py
(not in src) tears down and rebuilds the server with the new api
settings while preserving the registered capability set. -/
def ExposerState.restart (e : ExposerState) (api : Option Json) : ExposerState :=
  { e with apiConf := api, running := true }

/-- State of a Nyuki agent: its configuration, the copy last persisted
to the configuration file, the logging configuration last applied, the
bus and the Exposer. -/
structure NyukiState where
  config : Config
  savedConfig : Option Config
  logConf : Option Json
  bus : BusState
  exposer : ExposerState
deriving Repr

/-- One externally visible action of the agent lifecycle, recorded in
order of execution. -/
inductive AgentOp where
  | save_config (c : Config)
  | bus_disconnect (timeout : Option Nat)
  | configure_logging (c : Option Json)
  | bus_connect (gen : Nat)
  | exposer_restart (api : Option Json)
  | exposer_shutdown
  | loop_stop
deriving Repr

/-- Embedding of Nyuki.make_bus from nyuki/nyuki.py: a new Bus is built
from the bus section of the current configuration; a fresh construction
counter distinguishes it from earlier instances. -/
def Nyuki.make_bus (gen : Nat) (config : Config) : BusState :=
  { gen := gen, conf := lookupJ config "bus", connected := false }

/-- Embedding of Nyuki.update_config from nyuki/nyuki.py: the current
configuration is replaced by the merge result, or the ValidationError
propagates and the state is unchanged. -/
def Nyuki.update_config (validate : Config → Option String) (st : NyukiState)
    (patch : Config) : Except String NyukiState :=
  match merge_configs validate st.config patch with
  | Except.error msg => Except.error msg
  | Except.ok c => Except.ok { st with config := c }

/-- Embedding of Nyuki.save_config from nyuki/nyuki.py: the current
configuration is written to its JSON file. -/
def Nyuki.save_config (st : NyukiState) : NyukiState :=
  { st with savedConfig := some st.config }

/-- Embedding of Nyuki.stop from nyuki/nyuki.py: shuts the Exposer
down, disconnects the bus bounded by the timeout, stops the event loop;
the returned trace records the three actions in execution order. -/
def Nyuki.stop (st : NyukiState) (timeout : Nat) : NyukiState × List AgentOp :=
  let st1 := { st with exposer := st.exposer.shutdown }
  let st2 := { st1 with bus := st1.bus.disconnect }
  (st2, [AgentOp.exposer_shutdown, AgentOp.bus_disconnect (some timeout),
         AgentOp.loop_stop])

/-- Embedding of Nyuki.reload from nyuki/nyuki.py: saves the current
configuration, disconnects the bus, reapplies the log section to the
logging system, builds a fresh bus from the bus section, connects it,
and restarts the Exposer with the api section; the returned trace
records the actions in execution order. -/
def Nyuki.reload (st : NyukiState) : NyukiState × List AgentOp :=
  let st1 := Nyuki.save_config st
  let st2 := { st1 with bus := st1.bus.disconnect }
  let st3 := { st2 with logConf := lookupJ st2.config "log" }
  let newBus := Nyuki.make_bus (st2.bus.gen + 1) st3.config
  let st4 := { st3 with bus := newBus.connect }
  let st5 := { st4 with exposer := st4.exposer.restart (lookupJ st4.config "api") }
  (st5, [AgentOp.save_config st.config,
         AgentOp.bus_disconnect Option.none,
         AgentOp.configure_logging (lookupJ st.config "log"),
         AgentOp.bus_connect newBus.gen,
         AgentOp.exposer_restart (lookupJ st.config "api")])

/-- Embedding of Nyuki.Configuration.patch from nyuki/nyuki.py, the
PATCH handler of the built-in config capability: on a ValidationError
from update_config it answers 400 with the error message and nothing
else happens; otherwise it runs reload and answers with the full
current configuration. Result: the final state, the trace of lifecycle
actions performed, and the response. -/
def Configuration.patch (validate : Config → Option String) (st : NyukiState)
    (request : Config) : NyukiState × List AgentOp × Response :=
  match Nyuki.update_config validate st request with
  | Except.error msg =>
      (st, [], { status := 400, body := Json.obj [("error", Json.str msg)] })
  | Except.ok st1 =>
      let r := Nyuki.reload st1
      (r.1, r.2, { body := Json.obj r.1.config })

/-- C3: a stop call performs exactly three actions in this order: the
Exposer shutdown, then the bus disconnect bounded by the given timeout,
then the event loop stop; in particular the bus disconnect never
precedes the Exposer shutdown. -/
theorem nyuki_stop_spec (st : NyukiState) (timeout : Nat) :
    (Nyuki.stop st timeout).2 =
      [AgentOp.exposer_shutdown, AgentOp.bus_disconnect (some timeout),
       AgentOp.loop_stop] ∧
    (Nyuki.stop st timeout).1.exposer.running = false ∧
    (Nyuki.stop st timeout).1.bus.connected = false :=
  ⟨rfl, rfl, rfl⟩

/-- C4: a reload performs, in order and without any process
termination action, the persisting of the current configuration, the
bus disconnect, the logging reconfiguration from the configuration, the
connect of a freshly built bus, and the Exposer restart with the api
settings; afterwards the saved copy is the configuration, the bus is a
new instance built from the bus section and connected, the logging and
the Exposer follow the configuration, and the registered capabilities
are preserved. -/
theorem nyuki_reload_spec (st : NyukiState) :
    (Nyuki.reload st).2 =
      [AgentOp.save_config st.config,
       AgentOp.bus_disconnect Option.none,
       AgentOp.configure_logging (lookupJ st.config "log"),
       AgentOp.bus_connect (st.bus.gen + 1),
       AgentOp.exposer_restart (lookupJ st.config "api")] ∧
    (Nyuki.reload st).1.savedConfig = some st.config ∧
    (Nyuki.reload st).1.bus.gen = st.bus.gen + 1 ∧
    (Nyuki.reload st).1.bus.conf = lookupJ st.config "bus" ∧
    (Nyuki.reload st).1.bus.connected = true ∧
    (Nyuki.reload st).1.logConf = lookupJ st.config "log" ∧
    (Nyuki.reload st).1.exposer.apiConf = lookupJ st.config "api" ∧
    (Nyuki.reload st).1.exposer.capabilities = st.exposer.capabilities ∧
    (Nyuki.reload st).1.exposer.running = true ∧
    (Nyuki.reload st).1.config = st.config :=
  ⟨rfl, rfl, rfl, rfl, rfl, rfl, rfl, rfl, rfl, rfl⟩

/-- The schema registered by the sample agent in examples/sample.py: an
object with a required integer port. Used as a concrete validator. -/
def sampleSchema : Config → Option String
  | c =>
      match lookupJ c "port" with
      | some (Json.num _) => Option.none
      | some _ => some "port is not of type integer"
      | Option.none => some "port is a required property"

/-- A concrete agent state used to instantiate the lifecycle theorems. -/
def sampleState : NyukiState :=
  { config := [("port", Json.num 5558), ("bus", Json.obj [("jid", Json.str "sample")]),
               ("api", Json.obj [("port", Json.num 8080)]),
               ("log", Json.obj [("version", Json.num 1)])],
    savedConfig := Option.none,
    logConf := Option.none,
    bus := { gen := 0, conf := Option.none, connected := true },
    exposer := { apiConf := Option.none, capabilities := ["config", "message"],
                 running := true } }

/-- C1: a PATCH on the built-in config capability whose payload fails
schema validation answers 400 with the validation error message in the
body, leaves the state (hence the live configuration) unchanged and
performs no lifecycle action, so reload never runs; a payload that
passes validation is merged into the configuration and the whole reload
trace is performed. -/
theorem config_patch_validation_spec (validate : Config → Option String)
    (st : NyukiState) (request : Config) (msg : String) :
    (validate request = some msg →
      Configuration.patch validate st request =
        (st, [], { status := 400, body := Json.obj [("error", Json.str msg)] })) ∧
    (validate request = Option.none →
      (Configuration.patch validate st request).1.config =
        mergeFields st.config request ∧
      (Configuration.patch validate st request).2.1 =
        (Nyuki.reload { st with config := mergeFields st.config request }).2 ∧
      (Configuration.patch validate st request).2.1 ≠ []) := by
  constructor
  · intro hbad
    simp [Configuration.patch, Nyuki.update_config, merge_configs, hbad]
  · intro hok
    refine ⟨?_, ?_, ?_⟩ <;>
      simp [Configuration.patch, Nyuki.update_config, merge_configs, hok,
        Nyuki.reload, Nyuki.save_config]

/-- Witness for C1: against the sample schema, a patch without a port
answers 400 with the required-property message and changes nothing,
while a patch carrying an integer port is merged and runs the five
reload actions. -/
theorem config_patch_validation_spec_witness :
    Configuration.patch sampleSchema sampleState [("host", Json.str "x")] =
      (sampleState, [],
       { status := 400,
         body := Json.obj [("error", Json.str "port is a required property")] }) ∧
    ((Configuration.patch sampleSchema sampleState [("port", Json.num 6000)]).1.config =
      mergeFields sampleState.config [("port", Json.num 6000)] ∧
     (Configuration.patch sampleSchema sampleState [("port", Json.num 6000)]).2.1 =
      (Nyuki.reload
        { sampleState with
            config := mergeFields sampleState.config [("port", Json.num 6000)] }).2 ∧
     (Configuration.patch sampleSchema sampleState [("port", Json.num 6000)]).2.1 ≠ []) :=
  ⟨(config_patch_validation_spec sampleSchema sampleState [("host", Json.str "x")]
      "port is a required property").1 rfl,
   (config_patch_validation_spec sampleSchema sampleState [("port", Json.num 6000)]
      "port is a required property").2 rfl⟩

/-- C10: a PATCH on the built-in config capability whose payload passes
validation answers with status 200 and, as its body, the entire updated
configuration mapping of the state reached after the reload; that
configuration is the merge of the patch into the previous one. -/
theorem config_patch_body_spec (validate : Config → Option String)
    (st : NyukiState) (request : Config)
    (hok : validate request = Option.none) :
    (Configuration.patch validate st request).2.2 =
      { status := 200,
        body := Json.obj
          (Nyuki.reload
            { st with config := mergeFields st.config request }).1.config } ∧
    (Nyuki.reload { st with config := mergeFields st.config request }).1.config =
      mergeFields st.config request := by
  constructor
  · simp [Configuration.patch, Nyuki.update_config, merge_configs, hok]
  · rfl

/-- Witness for C10: the successful sample patch answers 200 with the
post-reload configuration, which is the merged mapping. -/
theorem config_patch_body_spec_witness :
    (Configuration.patch sampleSchema sampleState [("port", Json.num 6000)]).2.2 =
      { status := 200,
        body := Json.obj
          (Nyuki.reload
            { sampleState with
                config := mergeFields sampleState.config
                  [("port", Json.num 6000)] }).1.config } ∧
    (Nyuki.reload
      { sampleState with
          config := mergeFields sampleState.config [("port", Json.num 6000)] }).1.config =
      mergeFields sampleState.config [("port", Json.num 6000)] :=
  config_patch_body_spec sampleSchema sampleState [("port", Json.num 6000)] rfl
